import Mathlib

/-!
# Verification of `scripts/release.py`

A shallow embedding of the mobile-app release-automation script.  The script
is a single Python file with four workflows (`bump`, `bump-all`, `release`,
`release-all`) operating on a JSON version document, a changelog, two config
files and two external CLIs.  We model the file system and process
environment as an explicit `World` state, external process invocations as
trace events with an exit-code oracle, and Python exceptions / `sys.exit`
as an error monad.
-/

namespace Release

/-- First-match association-list lookup: the semantics of `d[k]` on a
Python dict represented as a key/value list (dicts have unique keys, and
we only ever use first-match operations, which agree on duplicate-free
lists). -/
def lookupA {α : Type} (k : String) : List (String × α) → Option α
  | [] => none
  | (k', v) :: rest => if k' = k then some v else lookupA k rest

/-- Update the first binding of `k` (insert at the end when absent): the
semantics of `d[k] = v` on a Python dict. -/
def setA {α : Type} (k : String) (v : α) : List (String × α) → List (String × α)
  | [] => [(k, v)]
  | (k', v') :: rest => if k' = k then (k, v) :: rest else (k', v') :: setA k v rest

/-- Apply `f` to the value bound at `k` (no-op when absent): the semantics of
mutating the dict object retrieved by `d[k]`. -/
def modA {α : Type} (k : String) (f : α → α) : List (String × α) → List (String × α)
  | [] => []
  | (k', v') :: rest => if k' = k then (k', f v') :: rest else (k', v') :: modA k f rest

/-- One flavor's record in `version.json`: its `build_name` plus a map from
platform name to the platform's `build_number`. -/
structure FlavorEntry where
  build_name : String
  platforms : List (String × Nat)
deriving Repr, DecidableEq

/-- The whole `version.json` document: flavor name to flavor record. -/
abbrev VersionDoc := List (String × FlavorEntry)

/-- One flavor's entry in the credentials file. -/
structure Creds where
  google_play : String
  app_store_key_path : String
deriving Repr, DecidableEq

/-- Observable events of one run: file reads/writes of the version store,
changelog appends, prints, and external CLI invocations. -/
inductive Event where
  | readVersion : Event
  | writeVersion (doc : VersionDoc) : Event
  | appendChangelog (entry : String) : Event
  | printLine (s : String) : Event
  | extCall (cmd : List String) : Event
deriving Repr, DecidableEq

/-- A Python-level abrupt termination: `sys.exit(code)` or an uncaught
exception carrying a message. -/
inductive PyErr where
  | exit (code : Nat) : PyErr
  | err (msg : String) : PyErr
deriving Repr, DecidableEq

/-- The ambient file system and process environment seen by the script.
`version = none` / `pubspec = none` / `codemagic = none` /
`credentials = none` model the respective file being absent; `files` is the
set of existing build-artifact paths; `extExit` and `extOut` are oracles
giving the exit code and (stdout, stderr) of each external command; `date`
is today's date as formatted by the script. -/
structure World where
  version : Option VersionDoc
  changelog : List String
  pubspec : Option (List String)
  codemagic : Option (List String)
  files : List String
  credentials : Option (List (String × Creds))
  extExit : List String → Int
  extOut : List String → String × String
  date : String

/-- The script's effect monad: state (world plus event trace so far) with
Python-style abrupt termination.  Side effects performed before an
exception persist, as they do for real file writes. -/
def M (α : Type) : Type := World × List Event → Except PyErr α × (World × List Event)

def M.pure {α : Type} (a : α) : M α := fun s => (Except.ok a, s)

def M.bind {α β : Type} (m : M α) (f : α → M β) : M β := fun s =>
  match m s with
  | (Except.ok a, s') => f a s'
  | (Except.error e, s') => (Except.error e, s')

instance : Monad M where
  pure := M.pure
  bind := M.bind

@[simp] theorem bind_eq {α β : Type} (m : M α) (f : α → M β) :
    m >>= f = M.bind m f := rfl

@[simp] theorem pure_eq {α : Type} (a : α) : (pure a : M α) = M.pure a := rfl

/-- Read the current world. -/
def getW : M World := fun s => (Except.ok s.1, s)

/-- Replace the current world. -/
def setW (w : World) : M Unit := fun s => (Except.ok (), (w, s.2))

/-- Record an event in the trace. -/
def emit (e : Event) : M Unit := fun s => (Except.ok (), (s.1, s.2 ++ [e]))

/-- Raise: `sys.exit` or an uncaught exception. -/
def throwP {α : Type} (e : PyErr) : M α := fun s => (Except.error e, s)

/-- `print(...)`. -/
def pr (msg : String) : M Unit := emit (Event.printLine msg)

/-- Python `d[k]` on a string-keyed dict: `KeyError` when the key is absent. -/
def getItem {α : Type} (d : List (String × α)) (k : String) : M α :=
  match lookupA k d with
  | some v => M.pure v
  | none => throwP (PyErr.err ("KeyError: " ++ k))

/-- Exit code of a completed process run: 0 on normal completion, the
`sys.exit` argument, or 1 for an uncaught exception (Python's behavior). -/
def exitCodeOf {α : Type} : Except PyErr α × (World × List Event) → Nat
  | (Except.ok _, _) => 0
  | (Except.error (PyErr.exit c), _) => c
  | (Except.error (PyErr.err _), _) => 1

/-! ## The script's constants (source lines 8-12) -/

def SUPPORTED_FLAVORS : List String := ["workplacebyls", "workplacebytsphub", "tiabytsp"]
def SUPPORTED_PLATFORMS : List String := ["android", "ios"]
def FLUTTER_VERSION : String := "3.29.1"

/-! ## File helpers (source lines 27-58) -/

/-- `read_version_file` (source lines 27-31): `FileNotFoundError` when
`version.json` is absent, otherwise parse and return it. -/
def read_version_file : M VersionDoc := do
  let w ← getW
  match w.version with
  | none => throwP (PyErr.err "FileNotFoundError: Missing version.json")
  | some d => do
    emit Event.readVersion
    M.pure d

/-- `write_version_file` (source lines 50-52): whole-file overwrite. -/
def write_version_file (d : VersionDoc) : M Unit := do
  let w ← getW
  setW { w with version := some d }
  emit (Event.writeVersion d)

/-- The changelog line format of `append_changelog` (source line 56). -/
def changelogLine (date flavor platform build_name : String) (build_number : Nat) : String :=
  "- [" ++ date ++ "] " ++ flavor ++ " (" ++ platform ++ "): "
    ++ build_name ++ "+" ++ toString build_number

/-- `append_changelog` (source lines 54-58): append one formatted line. -/
def append_changelog (flavor platform build_name : String) (build_number : Nat) : M Unit := do
  let w ← getW
  let entry := changelogLine w.date flavor platform build_name build_number
  setW { w with changelog := w.changelog ++ [entry] }
  emit (Event.appendChangelog entry)

/-! ## Config patchers (source lines 60-85) -/

/-- `leadsWith needle hay`: `hay` starts with `needle` — the semantics of
Python's `str.startswith`. -/
def leadsWith : List Char → List Char → Bool
  | [], _ => true
  | _ :: _, [] => false
  | a :: as, b :: bs => a = b && leadsWith as bs

/-- `containsSub needle hay`: `needle` occurs as a contiguous run inside
`hay` — the semantics of Python's `needle in hay` on strings. -/
def containsSub (needle : List Char) : List Char → Bool
  | [] => leadsWith needle []
  | b :: bs => leadsWith needle (b :: bs) || containsSub needle bs

/-- The per-line substitution of `update_pubspec_yaml` (source lines 64-68). -/
def patchPubspecLine (build_name : String) (build_number : Nat) (line : String) : String :=
  if leadsWith "version:".toList line.toList then
    "version: " ++ build_name ++ "+" ++ toString build_number
  else line

/-- `update_pubspec_yaml` (source lines 60-69): rewrite `pubspec.yaml` line
by line (`FileNotFoundError` from `open` when the file is absent). -/
def update_pubspec_yaml (build_name : String) (build_number : Nat) : M Unit := do
  let w ← getW
  match w.pubspec with
  | none => throwP (PyErr.err "FileNotFoundError: pubspec.yaml")
  | some lines => do
    setW { w with pubspec := some (lines.map (patchPubspecLine build_name build_number)) }
    pr ("Updated pubspec.yaml with version: " ++ build_name ++ "+" ++ toString build_number)

/-- The per-line substitution of `update_codemagic_yaml` (source lines 78-84):
`in` on Python strings is substring containment. -/
def patchCodemagicLine (build_name : String) (build_number : Nat) (line : String) : String :=
  if containsSub "BUILD_NAME".toList line.toList then
    "      BUILD_NAME: \x22" ++ build_name ++ "\x22"
  else if containsSub "BUILD_NUMBER".toList line.toList then
    "      BUILD_NUMBER: \x22" ++ toString build_number ++ "\x22"
  else line

/-- `update_codemagic_yaml` (source lines 71-85): silently a no-op when
`codemagic.yaml` is absent, else rewrite it line by line. -/
def update_codemagic_yaml (build_name : String) (build_number : Nat) : M Unit := do
  let w ← getW
  match w.codemagic with
  | none => M.pure ()
  | some lines => do
    setW { w with codemagic := some (lines.map (patchCodemagicLine build_name build_number)) }
    pr "Updated codemagic.yaml with BUILD_NAME and BUILD_NUMBER"

/-! ## Paths, package names, credentials (source lines 87-114) -/

/-- `get_aab_path` (source lines 87-88). -/
def get_aab_path (flavor : String) : String :=
  "build/app/outputs/bundle/" ++ flavor ++ "Release/app-" ++ flavor ++ "-release.aab"

/-- `get_ipa_path` (source lines 90-95): fixed table with a computed default. -/
def get_ipa_path (flavor : String) : String :=
  (lookupA flavor
    [("tiabytsp", "build/ios/ipa/TIA by TSP.ipa"),
     ("workplacebyls", "build/ios/ipa/Workplace By LS.ipa"),
     ("workplacebytsphub", "build/ios/ipa/Workplace By TSPHub.ipa")]).getD
    ("build/ios/ipa/" ++ flavor ++ ".ipa")

/-- `get_package_name` (source lines 97-102): fixed table whose `.get`
default is the `workplacebyls` package identifier. -/
def get_package_name (flavor : String) : String :=
  (lookupA flavor
    [("workplacebyls", "com.locationsolutions.workplacebyls"),
     ("workplacebytsphub", "com.locationsolutions.workplacebytsphub"),
     ("tiabytsp", "com.locationsolutions.tiabytsp")]).getD
    "com.locationsolutions.workplacebyls"

/-- `load_credentials` (source lines 104-114): `FileNotFoundError` when the
credentials file is absent, `KeyError` when the flavor has no entry. -/
def load_credentials (flavor : String) : M Creds := do
  let w ← getW
  match w.credentials with
  | none => throwP (PyErr.err "FileNotFoundError: Missing ayman-sctipt-credentials.json")
  | some data =>
    match lookupA flavor data with
    | none => throwP (PyErr.err ("KeyError: No credentials found for " ++ flavor))
    | some c => do
      pr ("Loaded credentials for " ++ flavor)
      M.pure c

/-! ## Store uploads (source lines 116-157) -/

/-- The `fastlane supply` command of `upload_to_google_play`
(source lines 123-132). -/
def supplyCmd (aab_path package_name json_key : String) : List String :=
  ["fastlane", "supply", "--aab", aab_path, "--package_name", package_name,
   "--track", "production", "--json_key", json_key, "--skip_upload_metadata",
   "--skip_upload_images", "--skip_upload_screenshots"]

/-- `upload_to_google_play` (source lines 116-136): early return if the AAB
is absent, else load credentials, run `fastlane supply`, and report based on
its exit code only. -/
def upload_to_google_play (flavor : String) : M Unit := do
  let aab_path := get_aab_path flavor
  let w ← getW
  if aab_path ∈ w.files then do
    let creds ← load_credentials flavor
    let cmd := supplyCmd aab_path (get_package_name flavor) creds.google_play
    emit (Event.extCall cmd)
    pr (w.extOut cmd).1
    pr (w.extOut cmd).2
    pr (if w.extExit cmd = 0 then "Uploaded to Google Play Store"
        else "Google Play upload failed")
  else
    pr "AAB not found. Did you run flutter build appbundle?"

/-- The `fastlane deliver` command of `upload_to_app_store`
(source lines 145-153). -/
def deliverCmd (ipa_path api_key_path : String) : List String :=
  ["fastlane", "deliver", "--ipa", ipa_path, "--skip_metadata",
   "--skip_screenshots", "--submit_for_review", "--automatic_release",
   "--api_key_path", api_key_path]

/-- `upload_to_app_store` (source lines 138-157): early return if the IPA is
absent, else load credentials, run `fastlane deliver`, and report based on
its exit code only. -/
def upload_to_app_store (flavor : String) : M Unit := do
  let ipa_path := get_ipa_path flavor
  let w ← getW
  if ipa_path ∈ w.files then do
    let creds ← load_credentials flavor
    let cmd := deliverCmd ipa_path creds.app_store_key_path
    emit (Event.extCall cmd)
    pr (w.extOut cmd).1
    pr (w.extOut cmd).2
    pr (if w.extExit cmd = 0 then "Uploaded to App Store Connect"
        else "App Store upload failed")
  else
    pr ("IPA not found at " ++ ipa_path)

/-! ## Workflows (source lines 159-267) -/

/-- The document mutation `data[flavor][platform]['build_number'] = n`
(source lines 171, 185, 223). -/
def setBuildNumber (doc : VersionDoc) (flavor platform : String) (n : Nat) : VersionDoc :=
  modA flavor (fun e => { e with platforms := setA platform n e.platforms }) doc

/-- `handle_bump` (source lines 159-176): validate, read, increment the one
pair's build number, write, append changelog, print. -/
def handle_bump (args : List String) : M Unit :=
  if args.length < 2 then do
    pr "Usage: bump <flavor> <platform>"
    throwP (PyErr.exit 1)
  else
    match args with
    | [flavor, platform] =>
      if flavor ∉ SUPPORTED_FLAVORS ∨ platform ∉ SUPPORTED_PLATFORMS then do
        pr "Invalid flavor or platform."
        throwP (PyErr.exit 1)
      else do
        let data ← read_version_file
        let entry ← getItem data flavor
        let current ← getItem entry.platforms platform
        let build_name := entry.build_name
        let build_number := current + 1
        let data2 := setBuildNumber data flavor platform build_number
        write_version_file data2
        append_changelog flavor platform build_name build_number
        pr ("Bumped " ++ flavor ++ " (" ++ platform ++ ") to "
            ++ build_name ++ "+" ++ toString build_number)
        pr ("BUILD_NAME=" ++ build_name)
        pr ("BUILD_NUMBER=" ++ toString build_number)
    | _ => throwP (PyErr.err "ValueError: too many values to unpack")

/-- The body of the inner loop of `handle_bump_all` (source lines 182-187):
bump one pair in the in-memory document and append its changelog line. -/
def bumpPair (data : VersionDoc) (flavor platform : String) : M VersionDoc := do
  let entry ← getItem data flavor
  let current ← getItem entry.platforms platform
  let build_name := entry.build_name
  let build_number := current + 1
  let data2 := setBuildNumber data flavor platform build_number
  append_changelog flavor platform build_name build_number
  pr ("Bumped " ++ flavor ++ " (" ++ platform ++ ") to "
      ++ build_name ++ "+" ++ toString build_number)
  M.pure data2

/-- Inner platform loop of `handle_bump_all` for a fixed flavor. -/
def bumpPlatforms (flavor : String) (ps : List String) (data : VersionDoc) : M VersionDoc :=
  match ps with
  | [] => M.pure data
  | p :: rest => do
    let d ← bumpPair data flavor p
    bumpPlatforms flavor rest d

/-- Outer flavor loop of `handle_bump_all`. -/
def bumpFlavors (fs : List String) (data : VersionDoc) : M VersionDoc :=
  match fs with
  | [] => M.pure data
  | f :: rest => do
    let d ← bumpPlatforms f SUPPORTED_PLATFORMS data
    bumpFlavors rest d

/-- `handle_bump_all` (source lines 178-189): bump every
(flavor, platform) pair in flavor-major order in memory, then one write. -/
def handle_bump_all : M Unit := do
  let data ← read_version_file
  let data2 ← bumpFlavors SUPPORTED_FLAVORS data
  write_version_file data2
  pr "All versions bumped and saved to version.json"

/-- The `shorebird release` command of `handle_release` /
`handle_release_all` (source lines 206-213, 241-248). -/
def shorebirdCmd (platform flavor build_name : String) (build_number : Nat) : List String :=
  ["shorebird", "release", platform, "--flutter-version=" ++ FLUTTER_VERSION,
   "--flavor", flavor, "-t", "lib/main_" ++ flavor ++ ".dart",
   "--build-name=" ++ build_name, "--build-number=" ++ toString build_number]

/-- `handle_release` (source lines 191-226): read the current (pre-increment)
build number, patch configs and run shorebird with it, upload, then persist
the incremented number and append a changelog line carrying it. -/
def handle_release (args : List String) : M Unit :=
  if args.length < 2 then do
    pr "Usage: release <flavor> <platform>"
    throwP (PyErr.exit 1)
  else
    match args with
    | [flavor, platform] => do
      let data ← read_version_file
      let entry ← getItem data flavor
      let current ← getItem entry.platforms platform
      let build_name := entry.build_name
      let build_number := current
      let new_build_number := build_number + 1
      update_pubspec_yaml build_name build_number
      update_codemagic_yaml build_name build_number
      let cmd := shorebirdCmd platform flavor build_name build_number
      emit (Event.extCall cmd)
      let w ← getW
      pr (w.extOut cmd).1
      pr (w.extOut cmd).2
      (if platform = "android" then upload_to_google_play flavor
       else if platform = "ios" then upload_to_app_store flavor
       else M.pure ())
      let data2 := setBuildNumber data flavor platform new_build_number
      write_version_file data2
      append_changelog flavor platform build_name new_build_number
      pr ("Released and bumped to " ++ build_name ++ "+" ++ toString new_build_number)
    | _ => throwP (PyErr.err "ValueError: too many values to unpack")

/-- The body of the inner loop of `handle_release_all` (source lines
234-265): patch configs and run shorebird/upload with the build number
currently stored for the pair, then append a changelog line with it. -/
def releasePair (data : VersionDoc) (flavor platform : String) : M Unit := do
  let entry ← getItem data flavor
  let current ← getItem entry.platforms platform
  let build_name := entry.build_name
  let build_number := current
  update_pubspec_yaml build_name build_number
  update_codemagic_yaml build_name build_number
  pr ("Releasing " ++ flavor ++ " (" ++ platform ++ ")...")
  let cmd := shorebirdCmd platform flavor build_name build_number
  emit (Event.extCall cmd)
  let w ← getW
  pr (w.extOut cmd).1
  pr (w.extOut cmd).2
  (if platform = "android" then upload_to_google_play flavor
   else if platform = "ios" then upload_to_app_store flavor
   else M.pure ())
  append_changelog flavor platform build_name build_number
  pr ("Done: " ++ flavor ++ " (" ++ platform ++ ") -> "
      ++ build_name ++ "+" ++ toString build_number)

/-- Inner flavor loop of `handle_release_all` for a fixed platform. -/
def releaseFlavors (data : VersionDoc) (platform : String) (fs : List String) : M Unit :=
  match fs with
  | [] => M.pure ()
  | f :: rest => do
    releasePair data f platform
    releaseFlavors data platform rest

/-- Outer platform loop of `handle_release_all` (platform-major order). -/
def releasePlatforms (data : VersionDoc) (ps : List String) : M Unit :=
  match ps with
  | [] => M.pure ()
  | p :: rest => do
    releaseFlavors data p SUPPORTED_FLAVORS
    releasePlatforms data rest

/-- `handle_release_all` (source lines 228-267): run `handle_bump_all`
(persisting incremented numbers), re-read the store, then for every
platform x flavor patch configs and release with the already-bumped
number, and finally re-write the (unchanged) document. -/
def handle_release_all : M Unit := do
  pr "Bumping all..."
  handle_bump_all
  let data ← read_version_file
  releasePlatforms data SUPPORTED_PLATFORMS
  write_version_file data
  pr "All releases done."

/-- `print_help` (source lines 14-25). -/
def print_help : M Unit :=
  pr "Usage: python release.py <command> [options]"

/-- `main` (source lines 269-291): dispatch on the first CLI argument. -/
def mainRun (args : List String) : M Unit :=
  match args with
  | [] => print_help
  | command :: options =>
    if "--help" ∈ command :: options then print_help
    else if command = "bump" then handle_bump options
    else if command = "bump-all" then handle_bump_all
    else if command = "release" then handle_release options
    else if command = "release-all" then handle_release_all
    else do
      pr ("Unknown command: " ++ command)
      print_help
      throwP (PyErr.exit 1)

end Release

namespace Release

/-! ## Association-list lemmas -/

theorem lookupA_setA_self {α : Type} (k : String) (v : α) (l : List (String × α)) :
    lookupA k (setA k v l) = some v := by
  induction l with
  | nil => simp [setA, lookupA]
  | cons p rest ih =>
    obtain ⟨k', v'⟩ := p
    by_cases h : k' = k
    · simp [setA, h, lookupA]
    · simp [setA, h, lookupA, ih]

theorem lookupA_setA_ne {α : Type} {j k : String} (hjk : j ≠ k) (v : α)
    (l : List (String × α)) : lookupA j (setA k v l) = lookupA j l := by
  induction l with
  | nil => simp [setA, lookupA, Ne.symm hjk]
  | cons p rest ih =>
    obtain ⟨k', v'⟩ := p
    by_cases h : k' = k
    · subst h
      simp [setA, lookupA, Ne.symm hjk]
    · simp [setA, h, lookupA, ih]

theorem lookupA_modA_self {α : Type} (k : String) (f : α → α) (l : List (String × α)) :
    lookupA k (modA k f l) = (lookupA k l).map f := by
  induction l with
  | nil => simp [modA, lookupA]
  | cons p rest ih =>
    obtain ⟨k', v'⟩ := p
    by_cases h : k' = k
    · simp [modA, h, lookupA]
    · simp [modA, h, lookupA, ih]

theorem lookupA_modA_ne {α : Type} {j k : String} (hjk : j ≠ k) (f : α → α)
    (l : List (String × α)) : lookupA j (modA k f l) = lookupA j l := by
  induction l with
  | nil => simp [modA, lookupA]
  | cons p rest ih =>
    obtain ⟨k', v'⟩ := p
    by_cases h : k' = k
    · subst h
      simp [modA, lookupA, Ne.symm hjk]
    · simp [modA, h, lookupA, ih]

theorem lookupA_setBuildNumber_self (doc : VersionDoc) (flavor platform : String)
    (n : Nat) (e : FlavorEntry) (he : lookupA flavor doc = some e) :
    lookupA flavor (setBuildNumber doc flavor platform n) =
      some { e with platforms := setA platform n e.platforms } := by
  simp [setBuildNumber, lookupA_modA_self, he]

theorem lookupA_setBuildNumber_ne {f' flavor : String} (hne : f' ≠ flavor)
    (doc : VersionDoc) (platform : String) (n : Nat) :
    lookupA f' (setBuildNumber doc flavor platform n) = lookupA f' doc := by
  simp [setBuildNumber, lookupA_modA_ne hne]

/-! ## Run lemma for `handle_bump` -/

/-- Full characterization of a successful `handle_bump` run. -/
theorem handle_bump_run (w : World) (flavor platform : String)
    (doc : VersionDoc) (e : FlavorEntry) (n : Nat)
    (hf : flavor ∈ SUPPORTED_FLAVORS) (hp : platform ∈ SUPPORTED_PLATFORMS)
    (hv : w.version = some doc)
    (he : lookupA flavor doc = some e)
    (hn : lookupA platform e.platforms = some n) :
    handle_bump [flavor, platform] (w, []) =
      (Except.ok (),
        ({ w with
            version := some (setBuildNumber doc flavor platform (n + 1)),
            changelog := w.changelog ++
              [changelogLine w.date flavor platform e.build_name (n + 1)] },
         [Event.readVersion,
          Event.writeVersion (setBuildNumber doc flavor platform (n + 1)),
          Event.appendChangelog (changelogLine w.date flavor platform e.build_name (n + 1)),
          Event.printLine ("Bumped " ++ flavor ++ " (" ++ platform ++ ") to "
            ++ e.build_name ++ "+" ++ toString (n + 1)),
          Event.printLine ("BUILD_NAME=" ++ e.build_name),
          Event.printLine ("BUILD_NUMBER=" ++ toString (n + 1))])) := by
  simp [handle_bump, hf, hp, M.bind, M.pure, read_version_file, getItem,
    write_version_file, append_changelog, pr, emit, getW, setW, hv, he, hn]

end Release

namespace Release

/-! ## Run equations for the auxiliary operations -/

/-- Run equation for `update_pubspec_yaml` when `pubspec.yaml` exists. -/
theorem update_pubspec_run (w : World) (t : List Event) (bn : String) (k : Nat)
    (pls : List String) (hp : w.pubspec = some pls) :
    update_pubspec_yaml bn k (w, t) =
      (Except.ok (),
        ({ w with pubspec := some (pls.map (patchPubspecLine bn k)) },
         t ++ [Event.printLine ("Updated pubspec.yaml with version: "
           ++ bn ++ "+" ++ toString k)])) := by
  simp [update_pubspec_yaml, M.bind, M.pure, getW, setW, pr, emit, hp]

/-- Trace chunk of the codemagic patcher: one print when the file exists,
nothing when it is absent. -/
def cmChunk : Option (List String) → List Event
  | none => []
  | some _ => [Event.printLine "Updated codemagic.yaml with BUILD_NAME and BUILD_NUMBER"]

/-- Run equation for `update_codemagic_yaml`: patches the file when present,
silently no-op when absent. -/
theorem update_codemagic_run (w : World) (t : List Event) (bn : String) (k : Nat) :
    update_codemagic_yaml bn k (w, t) =
      (Except.ok (),
        ({ w with codemagic := w.codemagic.map (List.map (patchCodemagicLine bn k)) },
         t ++ cmChunk w.codemagic)) := by
  cases w with
  | mk v ch pb cm fi cr ee eo d =>
    rcases cm with _ | cls
    · simp [update_codemagic_yaml, cmChunk, M.bind, M.pure, getW, setW, pr, emit]
    · simp [update_codemagic_yaml, cmChunk, M.bind, M.pure, getW, setW, pr, emit]

/-- Trace chunk of one `upload_to_google_play` call with resolved
credentials `c`, as a function of the relevant world components. -/
def gpChunk (files : List String) (extOut : List String → String × String)
    (extExit : List String → Int) (flavor : String) (c : Creds) : List Event :=
  if get_aab_path flavor ∈ files then
    [Event.printLine ("Loaded credentials for " ++ flavor),
     Event.extCall (supplyCmd (get_aab_path flavor) (get_package_name flavor) c.google_play),
     Event.printLine (extOut (supplyCmd (get_aab_path flavor) (get_package_name flavor) c.google_play)).1,
     Event.printLine (extOut (supplyCmd (get_aab_path flavor) (get_package_name flavor) c.google_play)).2,
     Event.printLine (if extExit (supplyCmd (get_aab_path flavor) (get_package_name flavor) c.google_play) = 0
       then "Uploaded to Google Play Store" else "Google Play upload failed")]
  else [Event.printLine "AAB not found. Did you run flutter build appbundle?"]

/-- Trace chunk of one `upload_to_app_store` call with resolved
credentials `c`. -/
def asChunk (files : List String) (extOut : List String → String × String)
    (extExit : List String → Int) (flavor : String) (c : Creds) : List Event :=
  if get_ipa_path flavor ∈ files then
    [Event.printLine ("Loaded credentials for " ++ flavor),
     Event.extCall (deliverCmd (get_ipa_path flavor) c.app_store_key_path),
     Event.printLine (extOut (deliverCmd (get_ipa_path flavor) c.app_store_key_path)).1,
     Event.printLine (extOut (deliverCmd (get_ipa_path flavor) c.app_store_key_path)).2,
     Event.printLine (if extExit (deliverCmd (get_ipa_path flavor) c.app_store_key_path) = 0
       then "Uploaded to App Store Connect" else "App Store upload failed")]
  else [Event.printLine ("IPA not found at " ++ get_ipa_path flavor)]

/-- Run equation for `upload_to_google_play` when credentials resolve. -/
theorem upload_gp_run (w : World) (t : List Event) (flavor : String)
    (cr : List (String × Creds)) (c : Creds)
    (hc : w.credentials = some cr) (hl : lookupA flavor cr = some c) :
    upload_to_google_play flavor (w, t) =
      (Except.ok (), (w, t ++ gpChunk w.files w.extOut w.extExit flavor c)) := by
  by_cases hart : get_aab_path flavor ∈ w.files
  · simp [upload_to_google_play, load_credentials, gpChunk, M.bind, M.pure, getW, setW,
      pr, emit, hart, hc, hl]
  · simp [upload_to_google_play, gpChunk, M.bind, M.pure, getW, pr, emit, hart]

/-- Run equation for `upload_to_app_store` when credentials resolve. -/
theorem upload_as_run (w : World) (t : List Event) (flavor : String)
    (cr : List (String × Creds)) (c : Creds)
    (hc : w.credentials = some cr) (hl : lookupA flavor cr = some c) :
    upload_to_app_store flavor (w, t) =
      (Except.ok (), (w, t ++ asChunk w.files w.extOut w.extExit flavor c)) := by
  by_cases hart : get_ipa_path flavor ∈ w.files
  · simp [upload_to_app_store, load_credentials, asChunk, M.bind, M.pure, getW, setW,
      pr, emit, hart, hc, hl]
  · simp [upload_to_app_store, asChunk, M.bind, M.pure, getW, pr, emit, hart]

end Release

namespace Release

/-- The platform dispatch of the upload step in `handle_release` /
`handle_release_all` (source lines 218-221, 259-262), as a trace chunk. -/
def uploadChunk (platform : String) (files : List String)
    (extOut : List String → String × String) (extExit : List String → Int)
    (flavor : String) (c : Creds) : List Event :=
  if platform = "android" then gpChunk files extOut extExit flavor c
  else if platform = "ios" then asChunk files extOut extExit flavor c
  else []

/-- Full characterization of a successful `handle_release` run: configs and
the shorebird invocation use the stored (pre-increment) build number `n`;
the persisted document and the changelog entry carry `n + 1`. -/
theorem handle_release_run (w : World) (flavor platform : String)
    (doc : VersionDoc) (e : FlavorEntry) (n : Nat) (pls : List String)
    (cr : List (String × Creds)) (c : Creds)
    (hp : platform ∈ SUPPORTED_PLATFORMS)
    (hv : w.version = some doc)
    (he : lookupA flavor doc = some e)
    (hn : lookupA platform e.platforms = some n)
    (hpub : w.pubspec = some pls)
    (hc : w.credentials = some cr)
    (hl : lookupA flavor cr = some c) :
    handle_release [flavor, platform] (w, []) =
      (Except.ok (),
        ({ w with
            version := some (setBuildNumber doc flavor platform (n + 1)),
            changelog := w.changelog ++
              [changelogLine w.date flavor platform e.build_name (n + 1)],
            pubspec := some (pls.map (patchPubspecLine e.build_name n)),
            codemagic := w.codemagic.map (List.map (patchCodemagicLine e.build_name n)) },
         [Event.readVersion,
          Event.printLine ("Updated pubspec.yaml with version: "
            ++ e.build_name ++ "+" ++ toString n)]
         ++ cmChunk w.codemagic ++
         [Event.extCall (shorebirdCmd platform flavor e.build_name n),
          Event.printLine (w.extOut (shorebirdCmd platform flavor e.build_name n)).1,
          Event.printLine (w.extOut (shorebirdCmd platform flavor e.build_name n)).2]
         ++ uploadChunk platform w.files w.extOut w.extExit flavor c ++
         [Event.writeVersion (setBuildNumber doc flavor platform (n + 1)),
          Event.appendChangelog (changelogLine w.date flavor platform e.build_name (n + 1)),
          Event.printLine ("Released and bumped to "
            ++ e.build_name ++ "+" ++ toString (n + 1))])) := by
  simp only [SUPPORTED_PLATFORMS, List.mem_cons, List.not_mem_nil, or_false,
    List.mem_singleton] at hp
  rcases hp with rfl | rfl
  · simp [handle_release, M.bind, M.pure, getW, setW, emit, pr, read_version_file,
      getItem, write_version_file, append_changelog, update_pubspec_yaml,
      update_codemagic_run, uploadChunk, upload_gp_run _ _ _ cr c,
      hv, he, hn, hpub, hc, hl]
  · simp [handle_release, M.bind, M.pure, getW, setW, emit, pr, read_version_file,
      getItem, write_version_file, append_changelog, update_pubspec_yaml,
      update_codemagic_run, uploadChunk, upload_as_run _ _ _ cr c,
      hv, he, hn, hpub, hc, hl]

end Release

namespace Release

/-- The document produced by `handle_bump_all` from `doc` when the three
flavors hold entries `e1, e2, e3` with android/ios build numbers
`a1/i1, a2/i2, a3/i3`: every pair's number incremented, flavor-major. -/
def bumpAllDoc (doc : VersionDoc) (a1 i1 a2 i2 a3 i3 : Nat) : VersionDoc :=
  setBuildNumber (setBuildNumber (setBuildNumber (setBuildNumber (setBuildNumber
    (setBuildNumber doc "workplacebyls" "android" (a1 + 1))
    "workplacebyls" "ios" (i1 + 1))
    "workplacebytsphub" "android" (a2 + 1))
    "workplacebytsphub" "ios" (i2 + 1))
    "tiabytsp" "android" (a3 + 1))
    "tiabytsp" "ios" (i3 + 1)

/-- Full characterization of a successful `handle_bump_all` run, from an
arbitrary initial trace `t0`. -/
theorem handle_bump_all_run (w : World) (t0 : List Event) (doc : VersionDoc)
    (e1 e2 e3 : FlavorEntry) (a1 i1 a2 i2 a3 i3 : Nat)
    (hv : w.version = some doc)
    (he1 : lookupA "workplacebyls" doc = some e1)
    (ha1 : lookupA "android" e1.platforms = some a1)
    (hi1 : lookupA "ios" e1.platforms = some i1)
    (he2 : lookupA "workplacebytsphub" doc = some e2)
    (ha2 : lookupA "android" e2.platforms = some a2)
    (hi2 : lookupA "ios" e2.platforms = some i2)
    (he3 : lookupA "tiabytsp" doc = some e3)
    (ha3 : lookupA "android" e3.platforms = some a3)
    (hi3 : lookupA "ios" e3.platforms = some i3) :
    handle_bump_all (w, t0) =
      (Except.ok (),
        ({ w with
            version := some (bumpAllDoc doc a1 i1 a2 i2 a3 i3),
            changelog := w.changelog ++
              [changelogLine w.date "workplacebyls" "android" e1.build_name (a1 + 1),
               changelogLine w.date "workplacebyls" "ios" e1.build_name (i1 + 1),
               changelogLine w.date "workplacebytsphub" "android" e2.build_name (a2 + 1),
               changelogLine w.date "workplacebytsphub" "ios" e2.build_name (i2 + 1),
               changelogLine w.date "tiabytsp" "android" e3.build_name (a3 + 1),
               changelogLine w.date "tiabytsp" "ios" e3.build_name (i3 + 1)] },
         t0 ++
         [Event.readVersion,
          Event.appendChangelog (changelogLine w.date "workplacebyls" "android" e1.build_name (a1 + 1)),
          Event.printLine ("Bumped workplacebyls (android) to " ++ e1.build_name ++ "+" ++ toString (a1 + 1)),
          Event.appendChangelog (changelogLine w.date "workplacebyls" "ios" e1.build_name (i1 + 1)),
          Event.printLine ("Bumped workplacebyls (ios) to " ++ e1.build_name ++ "+" ++ toString (i1 + 1)),
          Event.appendChangelog (changelogLine w.date "workplacebytsphub" "android" e2.build_name (a2 + 1)),
          Event.printLine ("Bumped workplacebytsphub (android) to " ++ e2.build_name ++ "+" ++ toString (a2 + 1)),
          Event.appendChangelog (changelogLine w.date "workplacebytsphub" "ios" e2.build_name (i2 + 1)),
          Event.printLine ("Bumped workplacebytsphub (ios) to " ++ e2.build_name ++ "+" ++ toString (i2 + 1)),
          Event.appendChangelog (changelogLine w.date "tiabytsp" "android" e3.build_name (a3 + 1)),
          Event.printLine ("Bumped tiabytsp (android) to " ++ e3.build_name ++ "+" ++ toString (a3 + 1)),
          Event.appendChangelog (changelogLine w.date "tiabytsp" "ios" e3.build_name (i3 + 1)),
          Event.printLine ("Bumped tiabytsp (ios) to " ++ e3.build_name ++ "+" ++ toString (i3 + 1)),
          Event.writeVersion (bumpAllDoc doc a1 i1 a2 i2 a3 i3),
          Event.printLine "All versions bumped and saved to version.json"])) := by
  simp [handle_bump_all, bumpFlavors, bumpPlatforms, bumpPair, bumpAllDoc,
    SUPPORTED_FLAVORS, SUPPORTED_PLATFORMS, M.bind, M.pure, getItem,
    read_version_file, write_version_file, append_changelog, pr, emit, getW, setW,
    setBuildNumber, lookupA_modA_self, lookupA_modA_ne, lookupA_setA_self,
    lookupA_setA_ne, hv, he1, ha1, hi1, he2, ha2, hi2, he3, ha3, hi3]

end Release

namespace Release

/-- Trace chunk of one iteration of the `handle_release_all` inner loop:
`m` is the (already bumped) build number it ships, `up` the upload chunk. -/
def relChunk (extOut : List String → String × String) (date : String)
    (platform flavor build_name : String) (m : Nat) (up : List Event) : List Event :=
  [Event.printLine ("Updated pubspec.yaml with version: " ++ build_name ++ "+" ++ toString m),
   Event.printLine "Updated codemagic.yaml with BUILD_NAME and BUILD_NUMBER",
   Event.printLine ("Releasing " ++ flavor ++ " (" ++ platform ++ ")..."),
   Event.extCall (shorebirdCmd platform flavor build_name m),
   Event.printLine (extOut (shorebirdCmd platform flavor build_name m)).1,
   Event.printLine (extOut (shorebirdCmd platform flavor build_name m)).2]
  ++ up ++
  [Event.appendChangelog (changelogLine date flavor platform build_name m),
   Event.printLine ("Done: " ++ flavor ++ " (" ++ platform ++ ") -> "
     ++ build_name ++ "+" ++ toString m)]

/-- Run equation for one android iteration of the `handle_release_all`
loop: the flavor ships the build number currently stored in `D`. -/
theorem releasePair_android_run (D : VersionDoc) (w : World) (t : List Event)
    (f : String) (E : FlavorEntry) (m : Nat) (q cm : List String)
    (cr : List (String × Creds)) (c : Creds)
    (hE : lookupA f D = some E) (hm : lookupA "android" E.platforms = some m)
    (hq : w.pubspec = some q) (hcm : w.codemagic = some cm)
    (hc : w.credentials = some cr) (hl : lookupA f cr = some c) :
    releasePair D f "android" (w, t) =
      (Except.ok (),
        ({ w with
            changelog := w.changelog ++ [changelogLine w.date f "android" E.build_name m],
            pubspec := some (List.map (patchPubspecLine E.build_name m) q),
            codemagic := some (List.map (patchCodemagicLine E.build_name m) cm) },
         t ++ relChunk w.extOut w.date "android" f E.build_name m
           (gpChunk w.files w.extOut w.extExit f c))) := by
  simp [releasePair, relChunk, M.bind, M.pure, getW, setW, emit, pr, getItem,
    update_pubspec_yaml, update_codemagic_yaml, append_changelog,
    upload_gp_run _ _ _ cr c, hE, hm, hq, hcm, hc, hl]

/-- Run equation for one ios iteration of the `handle_release_all` loop. -/
theorem releasePair_ios_run (D : VersionDoc) (w : World) (t : List Event)
    (f : String) (E : FlavorEntry) (m : Nat) (q cm : List String)
    (cr : List (String × Creds)) (c : Creds)
    (hE : lookupA f D = some E) (hm : lookupA "ios" E.platforms = some m)
    (hq : w.pubspec = some q) (hcm : w.codemagic = some cm)
    (hc : w.credentials = some cr) (hl : lookupA f cr = some c) :
    releasePair D f "ios" (w, t) =
      (Except.ok (),
        ({ w with
            changelog := w.changelog ++ [changelogLine w.date f "ios" E.build_name m],
            pubspec := some (List.map (patchPubspecLine E.build_name m) q),
            codemagic := some (List.map (patchCodemagicLine E.build_name m) cm) },
         t ++ relChunk w.extOut w.date "ios" f E.build_name m
           (asChunk w.files w.extOut w.extExit f c))) := by
  simp [releasePair, relChunk, M.bind, M.pure, getW, setW, emit, pr, getItem,
    update_pubspec_yaml, update_codemagic_yaml, append_changelog,
    upload_as_run _ _ _ cr c, hE, hm, hq, hcm, hc, hl]

end Release

namespace Release

/-- Run equation for the android pass of the `handle_release_all` loop. -/
theorem releaseFlavors_android_run (D : VersionDoc) (w : World) (t : List Event)
    (E1 E2 E3 : FlavorEntry) (m1 m2 m3 : Nat) (q cm : List String)
    (cr : List (String × Creds)) (c1 c2 c3 : Creds)
    (hE1 : lookupA "workplacebyls" D = some E1)
    (hm1 : lookupA "android" E1.platforms = some m1)
    (hE2 : lookupA "workplacebytsphub" D = some E2)
    (hm2 : lookupA "android" E2.platforms = some m2)
    (hE3 : lookupA "tiabytsp" D = some E3)
    (hm3 : lookupA "android" E3.platforms = some m3)
    (hq : w.pubspec = some q) (hcm : w.codemagic = some cm)
    (hc : w.credentials = some cr)
    (hl1 : lookupA "workplacebyls" cr = some c1)
    (hl2 : lookupA "workplacebytsphub" cr = some c2)
    (hl3 : lookupA "tiabytsp" cr = some c3) :
    releaseFlavors D "android" SUPPORTED_FLAVORS (w, t) =
      (Except.ok (),
        ({ w with
            changelog := w.changelog ++
              [changelogLine w.date "workplacebyls" "android" E1.build_name m1,
               changelogLine w.date "workplacebytsphub" "android" E2.build_name m2,
               changelogLine w.date "tiabytsp" "android" E3.build_name m3],
            pubspec := some
              (List.map (patchPubspecLine E3.build_name m3)
                (List.map (patchPubspecLine E2.build_name m2)
                  (List.map (patchPubspecLine E1.build_name m1) q))),
            codemagic := some
              (List.map (patchCodemagicLine E3.build_name m3)
                (List.map (patchCodemagicLine E2.build_name m2)
                  (List.map (patchCodemagicLine E1.build_name m1) cm))) },
         t ++ relChunk w.extOut w.date "android" "workplacebyls" E1.build_name m1
                (gpChunk w.files w.extOut w.extExit "workplacebyls" c1)
           ++ relChunk w.extOut w.date "android" "workplacebytsphub" E2.build_name m2
                (gpChunk w.files w.extOut w.extExit "workplacebytsphub" c2)
           ++ relChunk w.extOut w.date "android" "tiabytsp" E3.build_name m3
                (gpChunk w.files w.extOut w.extExit "tiabytsp" c3))) := by
  simp [releaseFlavors, SUPPORTED_FLAVORS, M.bind, M.pure,
    releasePair_android_run D _ _ _ _ _ _ _ cr c1,
    releasePair_android_run D _ _ _ _ _ _ _ cr c2,
    releasePair_android_run D _ _ _ _ _ _ _ cr c3,
    hE1, hm1, hE2, hm2, hE3, hm3, hq, hcm, hc, hl1, hl2, hl3]

end Release

namespace Release

/-- Run equation for the ios pass of the `handle_release_all` loop. -/
theorem releaseFlavors_ios_run (D : VersionDoc) (w : World) (t : List Event)
    (E1 E2 E3 : FlavorEntry) (m1 m2 m3 : Nat) (q cm : List String)
    (cr : List (String × Creds)) (c1 c2 c3 : Creds)
    (hE1 : lookupA "workplacebyls" D = some E1)
    (hm1 : lookupA "ios" E1.platforms = some m1)
    (hE2 : lookupA "workplacebytsphub" D = some E2)
    (hm2 : lookupA "ios" E2.platforms = some m2)
    (hE3 : lookupA "tiabytsp" D = some E3)
    (hm3 : lookupA "ios" E3.platforms = some m3)
    (hq : w.pubspec = some q) (hcm : w.codemagic = some cm)
    (hc : w.credentials = some cr)
    (hl1 : lookupA "workplacebyls" cr = some c1)
    (hl2 : lookupA "workplacebytsphub" cr = some c2)
    (hl3 : lookupA "tiabytsp" cr = some c3) :
    releaseFlavors D "ios" SUPPORTED_FLAVORS (w, t) =
      (Except.ok (),
        ({ w with
            changelog := w.changelog ++
              [changelogLine w.date "workplacebyls" "ios" E1.build_name m1,
               changelogLine w.date "workplacebytsphub" "ios" E2.build_name m2,
               changelogLine w.date "tiabytsp" "ios" E3.build_name m3],
            pubspec := some
              (List.map (patchPubspecLine E3.build_name m3)
                (List.map (patchPubspecLine E2.build_name m2)
                  (List.map (patchPubspecLine E1.build_name m1) q))),
            codemagic := some
              (List.map (patchCodemagicLine E3.build_name m3)
                (List.map (patchCodemagicLine E2.build_name m2)
                  (List.map (patchCodemagicLine E1.build_name m1) cm))) },
         t ++ relChunk w.extOut w.date "ios" "workplacebyls" E1.build_name m1
                (asChunk w.files w.extOut w.extExit "workplacebyls" c1)
           ++ relChunk w.extOut w.date "ios" "workplacebytsphub" E2.build_name m2
                (asChunk w.files w.extOut w.extExit "workplacebytsphub" c2)
           ++ relChunk w.extOut w.date "ios" "tiabytsp" E3.build_name m3
                (asChunk w.files w.extOut w.extExit "tiabytsp" c3))) := by
  simp [releaseFlavors, SUPPORTED_FLAVORS, M.bind, M.pure,
    releasePair_ios_run D _ _ _ _ _ _ _ cr c1,
    releasePair_ios_run D _ _ _ _ _ _ _ cr c2,
    releasePair_ios_run D _ _ _ _ _ _ _ cr c3,
    hE1, hm1, hE2, hm2, hE3, hm3, hq, hcm, hc, hl1, hl2, hl3]

end Release

namespace Release

/-- Full characterization of a successful `handle_release_all` run: after
`bump-all` has persisted the incremented numbers, every shorebird
invocation ships the already-incremented number (`a + 1` / `i + 1`). -/
theorem handle_release_all_run (w : World) (doc : VersionDoc)
    (e1 e2 e3 : FlavorEntry) (a1 i1 a2 i2 a3 i3 : Nat)
    (pls cms : List String) (cr : List (String × Creds)) (c1 c2 c3 : Creds)
    (hv : w.version = some doc)
    (he1 : lookupA "workplacebyls" doc = some e1)
    (ha1 : lookupA "android" e1.platforms = some a1)
    (hi1 : lookupA "ios" e1.platforms = some i1)
    (he2 : lookupA "workplacebytsphub" doc = some e2)
    (ha2 : lookupA "android" e2.platforms = some a2)
    (hi2 : lookupA "ios" e2.platforms = some i2)
    (he3 : lookupA "tiabytsp" doc = some e3)
    (ha3 : lookupA "android" e3.platforms = some a3)
    (hi3 : lookupA "ios" e3.platforms = some i3)
    (hpub : w.pubspec = some pls)
    (hcm : w.codemagic = some cms)
    (hc : w.credentials = some cr)
    (hl1 : lookupA "workplacebyls" cr = some c1)
    (hl2 : lookupA "workplacebytsphub" cr = some c2)
    (hl3 : lookupA "tiabytsp" cr = some c3) :
    handle_release_all (w, []) =
      (Except.ok (),
        ({ w with
            version := some (bumpAllDoc doc a1 i1 a2 i2 a3 i3),
            changelog := w.changelog ++
              [changelogLine w.date "workplacebyls" "android" e1.build_name (a1 + 1),
               changelogLine w.date "workplacebyls" "ios" e1.build_name (i1 + 1),
               changelogLine w.date "workplacebytsphub" "android" e2.build_name (a2 + 1),
               changelogLine w.date "workplacebytsphub" "ios" e2.build_name (i2 + 1),
               changelogLine w.date "tiabytsp" "android" e3.build_name (a3 + 1),
               changelogLine w.date "tiabytsp" "ios" e3.build_name (i3 + 1),
               changelogLine w.date "workplacebyls" "android" e1.build_name (a1 + 1),
               changelogLine w.date "workplacebytsphub" "android" e2.build_name (a2 + 1),
               changelogLine w.date "tiabytsp" "android" e3.build_name (a3 + 1),
               changelogLine w.date "workplacebyls" "ios" e1.build_name (i1 + 1),
               changelogLine w.date "workplacebytsphub" "ios" e2.build_name (i2 + 1),
               changelogLine w.date "tiabytsp" "ios" e3.build_name (i3 + 1)],
            pubspec := some
              (List.map (patchPubspecLine e3.build_name (i3 + 1))
                (List.map (patchPubspecLine e2.build_name (i2 + 1))
                  (List.map (patchPubspecLine e1.build_name (i1 + 1))
                    (List.map (patchPubspecLine e3.build_name (a3 + 1))
                      (List.map (patchPubspecLine e2.build_name (a2 + 1))
                        (List.map (patchPubspecLine e1.build_name (a1 + 1)) pls)))))),
            codemagic := some
              (List.map (patchCodemagicLine e3.build_name (i3 + 1))
                (List.map (patchCodemagicLine e2.build_name (i2 + 1))
                  (List.map (patchCodemagicLine e1.build_name (i1 + 1))
                    (List.map (patchCodemagicLine e3.build_name (a3 + 1))
                      (List.map (patchCodemagicLine e2.build_name (a2 + 1))
                        (List.map (patchCodemagicLine e1.build_name (a1 + 1)) cms)))))) },
         [Event.printLine "Bumping all...", Event.readVersion,
          Event.appendChangelog (changelogLine w.date "workplacebyls" "android" e1.build_name (a1 + 1)),
          Event.printLine ("Bumped workplacebyls (android) to " ++ e1.build_name ++ "+" ++ toString (a1 + 1)),
          Event.appendChangelog (changelogLine w.date "workplacebyls" "ios" e1.build_name (i1 + 1)),
          Event.printLine ("Bumped workplacebyls (ios) to " ++ e1.build_name ++ "+" ++ toString (i1 + 1)),
          Event.appendChangelog (changelogLine w.date "workplacebytsphub" "android" e2.build_name (a2 + 1)),
          Event.printLine ("Bumped workplacebytsphub (android) to " ++ e2.build_name ++ "+" ++ toString (a2 + 1)),
          Event.appendChangelog (changelogLine w.date "workplacebytsphub" "ios" e2.build_name (i2 + 1)),
          Event.printLine ("Bumped workplacebytsphub (ios) to " ++ e2.build_name ++ "+" ++ toString (i2 + 1)),
          Event.appendChangelog (changelogLine w.date "tiabytsp" "android" e3.build_name (a3 + 1)),
          Event.printLine ("Bumped tiabytsp (android) to " ++ e3.build_name ++ "+" ++ toString (a3 + 1)),
          Event.appendChangelog (changelogLine w.date "tiabytsp" "ios" e3.build_name (i3 + 1)),
          Event.printLine ("Bumped tiabytsp (ios) to " ++ e3.build_name ++ "+" ++ toString (i3 + 1)),
          Event.writeVersion (bumpAllDoc doc a1 i1 a2 i2 a3 i3),
          Event.printLine "All versions bumped and saved to version.json",
          Event.readVersion]
         ++ relChunk w.extOut w.date "android" "workplacebyls" e1.build_name (a1 + 1)
              (gpChunk w.files w.extOut w.extExit "workplacebyls" c1)
         ++ relChunk w.extOut w.date "android" "workplacebytsphub" e2.build_name (a2 + 1)
              (gpChunk w.files w.extOut w.extExit "workplacebytsphub" c2)
         ++ relChunk w.extOut w.date "android" "tiabytsp" e3.build_name (a3 + 1)
              (gpChunk w.files w.extOut w.extExit "tiabytsp" c3)
         ++ relChunk w.extOut w.date "ios" "workplacebyls" e1.build_name (i1 + 1)
              (asChunk w.files w.extOut w.extExit "workplacebyls" c1)
         ++ relChunk w.extOut w.date "ios" "workplacebytsphub" e2.build_name (i2 + 1)
              (asChunk w.files w.extOut w.extExit "workplacebytsphub" c2)
         ++ relChunk w.extOut w.date "ios" "tiabytsp" e3.build_name (i3 + 1)
              (asChunk w.files w.extOut w.extExit "tiabytsp" c3)
         ++ [Event.writeVersion (bumpAllDoc doc a1 i1 a2 i2 a3 i3),
             Event.printLine "All releases done."])) := by
  simp [handle_release_all, releasePlatforms, SUPPORTED_PLATFORMS, M.bind, M.pure,
    getW, setW, emit, pr, read_version_file, write_version_file,
    handle_bump_all_run w [Event.printLine "Bumping all..."] doc e1 e2 e3 a1 i1 a2 i2 a3 i3
      hv he1 ha1 hi1 he2 ha2 hi2 he3 ha3 hi3,
    releaseFlavors_android_run, releaseFlavors_ios_run,
    bumpAllDoc, setBuildNumber, lookupA_modA_self, lookupA_modA_ne,
    lookupA_setA_self, lookupA_setA_ne,
    he1, ha1, hi1, he2, ha2, hi2, he3, ha3, hi3, hpub, hcm, hc, hl1, hl2, hl3]

end Release

namespace Release

/-! ## Membership helpers for trace chunks -/

theorem extCall_mem_gpChunk {cmd : List String} {files : List String}
    {eo : List String → String × String} {ee : List String → Int}
    {f : String} {c : Creds} (h : Event.extCall cmd ∈ gpChunk files eo ee f c) :
    cmd.head? = some "fastlane" := by
  by_cases haa : get_aab_path f ∈ files
  · simp [gpChunk, haa] at h
    simp [h, supplyCmd]
  · simp [gpChunk, haa] at h

theorem extCall_mem_asChunk {cmd : List String} {files : List String}
    {eo : List String → String × String} {ee : List String → Int}
    {f : String} {c : Creds} (h : Event.extCall cmd ∈ asChunk files eo ee f c) :
    cmd.head? = some "fastlane" := by
  by_cases haa : get_ipa_path f ∈ files
  · simp [asChunk, haa] at h
    simp [h, deliverCmd]
  · simp [asChunk, haa] at h

theorem extCall_mem_uploadChunk {cmd : List String} {p : String} {files : List String}
    {eo : List String → String × String} {ee : List String → Int}
    {f : String} {c : Creds} (h : Event.extCall cmd ∈ uploadChunk p files eo ee f c) :
    cmd.head? = some "fastlane" := by
  unfold uploadChunk at h
  by_cases h1 : p = "android"
  · simp [h1] at h
    exact extCall_mem_gpChunk h
  · by_cases h2 : p = "ios"
    · simp [h1, h2] at h
      exact extCall_mem_asChunk h
    · simp [h1, h2] at h

theorem extCall_mem_relChunk {cmd : List String}
    {eo : List String → String × String} {d p f bn : String} {m : Nat}
    {up : List Event} (h : Event.extCall cmd ∈ relChunk eo d p f bn m up) :
    cmd = shorebirdCmd p f bn m ∨ Event.extCall cmd ∈ up := by
  simp [relChunk] at h
  tauto

theorem extCall_not_mem_cmChunk {cmd : List String} {o : Option (List String)} :
    Event.extCall cmd ∉ cmChunk o := by
  rcases o with _ | x <;> simp [cmChunk]

/-! ## Concrete sample data for witnesses -/

def sampleE1 : FlavorEntry :=
  { build_name := "1.2.0", platforms := [("android", 5), ("ios", 7)] }

def sampleE2 : FlavorEntry :=
  { build_name := "2.0.0", platforms := [("android", 11), ("ios", 13)] }

def sampleE3 : FlavorEntry :=
  { build_name := "3.1.4", platforms := [("android", 2), ("ios", 3)] }

def sampleDoc : VersionDoc :=
  [("workplacebyls", sampleE1), ("workplacebytsphub", sampleE2), ("tiabytsp", sampleE3)]

def sampleCreds : List (String × Creds) :=
  [("workplacebyls", { google_play := "gp1.json", app_store_key_path := "as1.p8" }),
   ("workplacebytsphub", { google_play := "gp2.json", app_store_key_path := "as2.p8" }),
   ("tiabytsp", { google_play := "gp3.json", app_store_key_path := "as3.p8" })]

def sampleWorld : World :=
  { version := some sampleDoc
    changelog := ["- [2026-01-01] old entry"]
    pubspec := some ["name: app", "version: 1.0.0+1", "environment: sdk"]
    codemagic := some ["workflows:", "      BUILD_NAME: \x22old\x22", "      BUILD_NUMBER: \x220\x22"]
    files := ["build/app/outputs/bundle/workplacebylsRelease/app-workplacebyls-release.aab",
              "build/ios/ipa/Workplace By LS.ipa"]
    credentials := some sampleCreds
    extExit := fun _ => 0
    extOut := fun _ => ("", "")
    date := "2026-10-12" }

/-- A sample world whose CI descriptor file is absent. -/
def sampleWorldNoCM : World := { sampleWorld with codemagic := none }

end Release

namespace Release

/-! ## Claim theorems -/

/-- Claim C3: for every valid (flavor, platform), the `bump` workflow
increases that pair's persisted `build_number` by exactly 1 and leaves the
flavor's `build_name` unchanged. -/
theorem bump_increments_build_number_by_one (w : World) (flavor platform : String)
    (doc : VersionDoc) (e : FlavorEntry) (n : Nat)
    (hf : flavor ∈ SUPPORTED_FLAVORS) (hp : platform ∈ SUPPORTED_PLATFORMS)
    (hv : w.version = some doc)
    (he : lookupA flavor doc = some e)
    (hn : lookupA platform e.platforms = some n) :
    ∃ w' t, handle_bump [flavor, platform] (w, []) = (Except.ok (), (w', t)) ∧
      w'.version = some (setBuildNumber doc flavor platform (n + 1)) ∧
      ∃ e', lookupA flavor (setBuildNumber doc flavor platform (n + 1)) = some e' ∧
        lookupA platform e'.platforms = some (n + 1) ∧
        e'.build_name = e.build_name := by
  refine ⟨_, _, handle_bump_run w flavor platform doc e n hf hp hv he hn, rfl,
    { e with platforms := setA platform (n + 1) e.platforms },
    lookupA_setBuildNumber_self doc flavor platform (n + 1) e he, ?_, rfl⟩
  simp [lookupA_setA_self]

/-- Witness for C3 on a concrete store: bumping `workplacebyls`/`android`
from 5 persists 6. -/
theorem bump_increments_build_number_by_one_witness :
    ∃ w' t, handle_bump ["workplacebyls", "android"] (sampleWorld, []) =
        (Except.ok (), (w', t)) ∧
      w'.version = some (setBuildNumber sampleDoc "workplacebyls" "android" (5 + 1)) ∧
      ∃ e', lookupA "workplacebyls" (setBuildNumber sampleDoc "workplacebyls" "android" (5 + 1)) = some e' ∧
        lookupA "android" e'.platforms = some (5 + 1) ∧
        e'.build_name = sampleE1.build_name :=
  bump_increments_build_number_by_one sampleWorld "workplacebyls" "android"
    sampleDoc sampleE1 5 (by decide) (by decide) rfl (by decide) (by decide)

/-- Claim C9: `bump` modifies only the targeted (flavor, platform) pair:
every other flavor's record, the same flavor's other platforms, and the
flavor's `build_name` are unchanged. -/
theorem bump_modifies_only_target_pair (w : World) (flavor platform : String)
    (doc : VersionDoc) (e : FlavorEntry) (n : Nat)
    (hf : flavor ∈ SUPPORTED_FLAVORS) (hp : platform ∈ SUPPORTED_PLATFORMS)
    (hv : w.version = some doc)
    (he : lookupA flavor doc = some e)
    (hn : lookupA platform e.platforms = some n) :
    ∃ w' t, handle_bump [flavor, platform] (w, []) = (Except.ok (), (w', t)) ∧
      w'.version = some (setBuildNumber doc flavor platform (n + 1)) ∧
      (∀ f', f' ≠ flavor →
        lookupA f' (setBuildNumber doc flavor platform (n + 1)) = lookupA f' doc) ∧
      ∃ e', lookupA flavor (setBuildNumber doc flavor platform (n + 1)) = some e' ∧
        e'.build_name = e.build_name ∧
        ∀ p', p' ≠ platform → lookupA p' e'.platforms = lookupA p' e.platforms := by
  refine ⟨_, _, handle_bump_run w flavor platform doc e n hf hp hv he hn, rfl,
    fun f' hf' => lookupA_setBuildNumber_ne hf' doc platform (n + 1),
    { e with platforms := setA platform (n + 1) e.platforms },
    lookupA_setBuildNumber_self doc flavor platform (n + 1) e he, rfl,
    fun p' hp' => ?_⟩
  simp [lookupA_setA_ne hp']

/-- Witness for C9: bumping `workplacebyls`/`android` leaves the other
flavors, the ios number and the build name untouched. -/
theorem bump_modifies_only_target_pair_witness :
    ∃ w' t, handle_bump ["workplacebyls", "android"] (sampleWorld, []) =
        (Except.ok (), (w', t)) ∧
      w'.version = some (setBuildNumber sampleDoc "workplacebyls" "android" (5 + 1)) ∧
      (∀ f', f' ≠ "workplacebyls" →
        lookupA f' (setBuildNumber sampleDoc "workplacebyls" "android" (5 + 1)) = lookupA f' sampleDoc) ∧
      ∃ e', lookupA "workplacebyls" (setBuildNumber sampleDoc "workplacebyls" "android" (5 + 1)) = some e' ∧
        e'.build_name = sampleE1.build_name ∧
        ∀ p', p' ≠ "android" → lookupA p' e'.platforms = lookupA p' sampleE1.platforms :=
  bump_modifies_only_target_pair sampleWorld "workplacebyls" "android"
    sampleDoc sampleE1 5 (by decide) (by decide) rfl (by decide) (by decide)

/-- Claim C5: `bump` with an unsupported flavor or platform prints an error
and exits with code 1, leaving the version store unread and unmodified. -/
theorem bump_invalid_input_exits_without_touching_store (w : World)
    (flavor platform : String)
    (h : flavor ∉ SUPPORTED_FLAVORS ∨ platform ∉ SUPPORTED_PLATFORMS) :
    handle_bump [flavor, platform] (w, []) =
      (Except.error (PyErr.exit 1),
       (w, [Event.printLine "Invalid flavor or platform."])) ∧
    exitCodeOf (handle_bump [flavor, platform] (w, [])) = 1 := by
  have h1 : handle_bump [flavor, platform] (w, []) =
      (Except.error (PyErr.exit 1),
       (w, [Event.printLine "Invalid flavor or platform."])) := by
    rcases h with h | h <;>
      simp [handle_bump, M.bind, M.pure, pr, emit, throwP, h]
  exact ⟨h1, by rw [h1]; rfl⟩

/-- Witness for C5: `bump badflavor android` exits 1 without touching the
store. -/
theorem bump_invalid_input_exits_without_touching_store_witness :
    (handle_bump ["badflavor", "android"] (sampleWorld, []) =
      (Except.error (PyErr.exit 1),
       (sampleWorld, [Event.printLine "Invalid flavor or platform."]))) ∧
    exitCodeOf (handle_bump ["badflavor", "android"] (sampleWorld, [])) = 1 :=
  bump_invalid_input_exits_without_touching_store sampleWorld "badflavor" "android"
    (Or.inl (by decide))

/-- Claim C10: for every flavor outside the supported set, the package-name
lookup silently falls back to the `workplacebyls` package identifier. -/
theorem get_package_name_defaults_to_workplacebyls (flavor : String)
    (h : flavor ∉ SUPPORTED_FLAVORS) :
    get_package_name flavor = "com.locationsolutions.workplacebyls" := by
  simp only [SUPPORTED_FLAVORS, List.mem_cons, List.not_mem_nil, or_false,
    not_or] at h
  obtain ⟨h1, h2, h3⟩ := h
  simp [get_package_name, lookupA, Ne.symm h1, Ne.symm h2, Ne.symm h3]

/-- Witness for C10: an unrecognized flavor resolves to the `workplacebyls`
package identifier. -/
theorem get_package_name_defaults_to_workplacebyls_witness :
    get_package_name "badflavor" = "com.locationsolutions.workplacebyls" :=
  get_package_name_defaults_to_workplacebyls "badflavor" (by decide)

/-- Claim C7: when the expected artifact (AAB / IPA) is absent, each upload
operation prints a message and returns early: the world is unchanged, no
upload CLI is invoked, and no exception is raised. -/
theorem upload_skipped_when_artifact_missing (w : World) (t : List Event)
    (flavor : String)
    (ha : get_aab_path flavor ∉ w.files) (hi : get_ipa_path flavor ∉ w.files) :
    upload_to_google_play flavor (w, t) =
      (Except.ok (),
       (w, t ++ [Event.printLine "AAB not found. Did you run flutter build appbundle?"])) ∧
    upload_to_app_store flavor (w, t) =
      (Except.ok (),
       (w, t ++ [Event.printLine ("IPA not found at " ++ get_ipa_path flavor)])) := by
  constructor
  · simp [upload_to_google_play, M.bind, M.pure, getW, pr, emit, ha]
  · simp [upload_to_app_store, M.bind, M.pure, getW, pr, emit, hi]

/-- Witness for C7: with no `tiabytsp` artifacts on disk, both uploads skip
with a print only. -/
theorem upload_skipped_when_artifact_missing_witness :
    (upload_to_google_play "tiabytsp" (sampleWorld, []) =
      (Except.ok (),
       (sampleWorld, [] ++ [Event.printLine "AAB not found. Did you run flutter build appbundle?"]))) ∧
    upload_to_app_store "tiabytsp" (sampleWorld, []) =
      (Except.ok (),
       (sampleWorld, [] ++ [Event.printLine ("IPA not found at " ++ get_ipa_path "tiabytsp")])) :=
  upload_skipped_when_artifact_missing sampleWorld [] "tiabytsp" (by decide) (by decide)

end Release

namespace Release

/-- Claim C8: both config patchers pass through every line not matching
their fixed key unchanged, and the CI-config patcher is silently a no-op
when `codemagic.yaml` is absent. -/
theorem config_patchers_preserve_nonmatching_lines (w : World) (t : List Event)
    (bn : String) (k : Nat) :
    (∀ pls, w.pubspec = some pls →
      update_pubspec_yaml bn k (w, t) =
        (Except.ok (),
         ({ w with pubspec := some (pls.map (patchPubspecLine bn k)) },
          t ++ [Event.printLine ("Updated pubspec.yaml with version: "
            ++ bn ++ "+" ++ toString k)]))) ∧
    (∀ line, leadsWith "version:".toList line.toList = false →
      patchPubspecLine bn k line = line) ∧
    (∀ cls, w.codemagic = some cls →
      update_codemagic_yaml bn k (w, t) =
        (Except.ok (),
         ({ w with codemagic := some (cls.map (patchCodemagicLine bn k)) },
          t ++ [Event.printLine "Updated codemagic.yaml with BUILD_NAME and BUILD_NUMBER"]))) ∧
    (∀ line, containsSub "BUILD_NAME".toList line.toList = false →
      containsSub "BUILD_NUMBER".toList line.toList = false →
      patchCodemagicLine bn k line = line) ∧
    (w.codemagic = none → update_codemagic_yaml bn k (w, t) = (Except.ok (), (w, t))) := by
  refine ⟨fun pls hp => update_pubspec_run w t bn k pls hp,
    fun line hline => by
      simp only [String.toList] at hline
      simp [patchPubspecLine, String.toList, hline],
    fun cls hcm => ?_, fun line h1 h2 => by
      simp only [String.toList] at h1 h2
      simp [patchCodemagicLine, String.toList, h1, h2], fun hnone => ?_⟩
  · rw [update_codemagic_run]
    simp [hcm, cmChunk]
  · cases w with
    | mk v ch pb cm fi cr ee eo d =>
      simp only at hnone
      subst hnone
      simp [update_codemagic_yaml, M.bind, M.pure, getW]

/-- Witness for C8: concrete non-matching lines survive both patchers, and
the CI patcher is a no-op on a world without `codemagic.yaml`. -/
theorem config_patchers_preserve_nonmatching_lines_witness :
    (update_pubspec_yaml "9.9.9" 42 (sampleWorld, []) =
      (Except.ok (),
       ({ sampleWorld with pubspec := some (List.map (patchPubspecLine "9.9.9" 42)
            ["name: app", "version: 1.0.0+1", "environment: sdk"]) },
        [] ++ [Event.printLine ("Updated pubspec.yaml with version: "
          ++ "9.9.9" ++ "+" ++ toString 42)]))) ∧
    patchPubspecLine "9.9.9" 42 "name: app" = "name: app" ∧
    (update_codemagic_yaml "9.9.9" 42 (sampleWorld, []) =
      (Except.ok (),
       ({ sampleWorld with codemagic := some (List.map (patchCodemagicLine "9.9.9" 42)
            ["workflows:", "      BUILD_NAME: \x22old\x22", "      BUILD_NUMBER: \x220\x22"]) },
        [] ++ [Event.printLine "Updated codemagic.yaml with BUILD_NAME and BUILD_NUMBER"]))) ∧
    patchCodemagicLine "9.9.9" 42 "workflows:" = "workflows:" ∧
    update_codemagic_yaml "9.9.9" 42 (sampleWorldNoCM, []) =
      (Except.ok (), (sampleWorldNoCM, [])) :=
  ⟨(config_patchers_preserve_nonmatching_lines sampleWorld [] "9.9.9" 42).1 _ rfl,
   (config_patchers_preserve_nonmatching_lines sampleWorld [] "9.9.9" 42).2.1 _ (by decide),
   (config_patchers_preserve_nonmatching_lines sampleWorld [] "9.9.9" 42).2.2.1 _ rfl,
   (config_patchers_preserve_nonmatching_lines sampleWorld [] "9.9.9" 42).2.2.2.1 _
     (by decide) (by decide),
   (config_patchers_preserve_nonmatching_lines sampleWorldNoCM [] "9.9.9" 42).2.2.2.2 rfl⟩

end Release

namespace Release

/-- Claim C1: for every valid (flavor, platform), `release` invokes the
packaging tool with the current, pre-increment build number `n`
(`--build-number=n`), then persists `n + 1` to the version store and
appends a changelog entry carrying `n + 1`. -/
theorem release_ships_preincrement_and_persists_increment (w : World)
    (flavor platform : String) (doc : VersionDoc) (e : FlavorEntry) (n : Nat)
    (pls : List String) (cr : List (String × Creds)) (c : Creds)
    (hf : flavor ∈ SUPPORTED_FLAVORS) (hp : platform ∈ SUPPORTED_PLATFORMS)
    (hv : w.version = some doc)
    (he : lookupA flavor doc = some e)
    (hn : lookupA platform e.platforms = some n)
    (hpub : w.pubspec = some pls)
    (hc : w.credentials = some cr)
    (hl : lookupA flavor cr = some c) :
    ∃ w' t, handle_release [flavor, platform] (w, []) = (Except.ok (), (w', t)) ∧
      Event.extCall (shorebirdCmd platform flavor e.build_name n) ∈ t ∧
      ("--build-number=" ++ toString n) ∈ shorebirdCmd platform flavor e.build_name n ∧
      w'.version = some (setBuildNumber doc flavor platform (n + 1)) ∧
      (∃ e', lookupA flavor (setBuildNumber doc flavor platform (n + 1)) = some e' ∧
        lookupA platform e'.platforms = some (n + 1)) ∧
      w'.changelog = w.changelog ++
        [changelogLine w.date flavor platform e.build_name (n + 1)] := by
  refine ⟨_, _, handle_release_run w flavor platform doc e n pls cr c hp hv he hn hpub hc hl,
    by simp, by simp [shorebirdCmd], rfl,
    ⟨{ e with platforms := setA platform (n + 1) e.platforms },
     lookupA_setBuildNumber_self doc flavor platform (n + 1) e he,
     by simp [lookupA_setA_self]⟩, rfl⟩

/-- Witness for C1: releasing `workplacebyls`/`android` with stored build
number 5 ships `--build-number=5` and persists 6. -/
theorem release_ships_preincrement_and_persists_increment_witness :
    ∃ w' t, handle_release ["workplacebyls", "android"] (sampleWorld, []) =
        (Except.ok (), (w', t)) ∧
      Event.extCall (shorebirdCmd "android" "workplacebyls" sampleE1.build_name 5) ∈ t ∧
      ("--build-number=" ++ toString 5) ∈ shorebirdCmd "android" "workplacebyls" sampleE1.build_name 5 ∧
      w'.version = some (setBuildNumber sampleDoc "workplacebyls" "android" (5 + 1)) ∧
      (∃ e', lookupA "workplacebyls" (setBuildNumber sampleDoc "workplacebyls" "android" (5 + 1)) = some e' ∧
        lookupA "android" e'.platforms = some (5 + 1)) ∧
      w'.changelog = sampleWorld.changelog ++
        [changelogLine sampleWorld.date "workplacebyls" "android" sampleE1.build_name (5 + 1)] :=
  release_ships_preincrement_and_persists_increment sampleWorld "workplacebyls" "android"
    sampleDoc sampleE1 5 ["name: app", "version: 1.0.0+1", "environment: sdk"]
    sampleCreds { google_play := "gp1.json", app_store_key_path := "as1.p8" }
    (by decide) (by decide) rfl (by decide) (by decide) rfl rfl (by decide)

/-- Claim C6: with both external tools runnable, the outcome of `release`
does not depend on their exit codes: for every exit-code oracle `g` the
workflow completes, the process exit code is 0, the incremented build
number is persisted, and the changelog entry is appended; an upload CLI
is still invoked. -/
theorem release_outcome_independent_of_tool_exit_codes (w : World)
    (flavor platform : String) (doc : VersionDoc) (e : FlavorEntry) (n : Nat)
    (pls : List String) (cr : List (String × Creds)) (c : Creds)
    (hf : flavor ∈ SUPPORTED_FLAVORS) (hp : platform ∈ SUPPORTED_PLATFORMS)
    (hv : w.version = some doc)
    (he : lookupA flavor doc = some e)
    (hn : lookupA platform e.platforms = some n)
    (hpub : w.pubspec = some pls)
    (hc : w.credentials = some cr)
    (hl : lookupA flavor cr = some c)
    (haab : get_aab_path flavor ∈ w.files)
    (hipa : get_ipa_path flavor ∈ w.files) :
    ∀ g : List String → Int,
      ∃ w' t, handle_release [flavor, platform] ({ w with extExit := g }, []) =
          (Except.ok (), (w', t)) ∧
        exitCodeOf (handle_release [flavor, platform] ({ w with extExit := g }, [])) = 0 ∧
        w'.version = some (setBuildNumber doc flavor platform (n + 1)) ∧
        w'.changelog = w.changelog ++
          [changelogLine w.date flavor platform e.build_name (n + 1)] ∧
        ∃ cmd, Event.extCall cmd ∈ t ∧ cmd.head? = some "fastlane" := by
  intro g
  have h := handle_release_run { w with extExit := g } flavor platform doc e n pls cr c
    hp hv he hn hpub hc hl
  refine ⟨_, _, h, by rw [h]; rfl, rfl, rfl, ?_⟩
  simp only [SUPPORTED_PLATFORMS, List.mem_cons, List.not_mem_nil, or_false,
    List.mem_singleton] at hp
  rcases hp with rfl | rfl
  · exact ⟨supplyCmd (get_aab_path flavor) (get_package_name flavor) c.google_play,
      by simp [uploadChunk, gpChunk, haab], by simp [supplyCmd]⟩
  · exact ⟨deliverCmd (get_ipa_path flavor) c.app_store_key_path,
      by simp [uploadChunk, asChunk, hipa], by simp [deliverCmd]⟩

/-- Witness for C6: with a nonzero exit-code oracle, the release still
persists 6 and exits 0. -/
theorem release_outcome_independent_of_tool_exit_codes_witness :
    ∃ w' t, handle_release ["workplacebyls", "android"]
        ({ sampleWorld with extExit := fun _ => 1 }, []) = (Except.ok (), (w', t)) ∧
      exitCodeOf (handle_release ["workplacebyls", "android"]
        ({ sampleWorld with extExit := fun _ => 1 }, [])) = 0 ∧
      w'.version = some (setBuildNumber sampleDoc "workplacebyls" "android" (5 + 1)) ∧
      w'.changelog = sampleWorld.changelog ++
        [changelogLine sampleWorld.date "workplacebyls" "android" sampleE1.build_name (5 + 1)] ∧
      ∃ cmd, Event.extCall cmd ∈ t ∧ cmd.head? = some "fastlane" :=
  release_outcome_independent_of_tool_exit_codes sampleWorld "workplacebyls" "android"
    sampleDoc sampleE1 5 ["name: app", "version: 1.0.0+1", "environment: sdk"]
    sampleCreds { google_play := "gp1.json", app_store_key_path := "as1.p8" }
    (by decide) (by decide) rfl (by decide) (by decide) rfl rfl (by decide)
    (by decide) (by decide) (fun _ => 1)

end Release

namespace Release

/-- Claim C4: on a document containing every supported flavor and platform,
`bump-all` increments every pair's build number by exactly 1, and performs
a single version-store write, at the end of the workflow. -/
theorem bump_all_increments_every_pair_single_write (w : World) (doc : VersionDoc)
    (e1 e2 e3 : FlavorEntry) (a1 i1 a2 i2 a3 i3 : Nat)
    (hv : w.version = some doc)
    (he1 : lookupA "workplacebyls" doc = some e1)
    (ha1 : lookupA "android" e1.platforms = some a1)
    (hi1 : lookupA "ios" e1.platforms = some i1)
    (he2 : lookupA "workplacebytsphub" doc = some e2)
    (ha2 : lookupA "android" e2.platforms = some a2)
    (hi2 : lookupA "ios" e2.platforms = some i2)
    (he3 : lookupA "tiabytsp" doc = some e3)
    (ha3 : lookupA "android" e3.platforms = some a3)
    (hi3 : lookupA "ios" e3.platforms = some i3) :
    ∃ w' t, handle_bump_all (w, []) = (Except.ok (), (w', t)) ∧
      w'.version = some (bumpAllDoc doc a1 i1 a2 i2 a3 i3) ∧
      (∃ E1, lookupA "workplacebyls" (bumpAllDoc doc a1 i1 a2 i2 a3 i3) = some E1 ∧
        lookupA "android" E1.platforms = some (a1 + 1) ∧
        lookupA "ios" E1.platforms = some (i1 + 1)) ∧
      (∃ E2, lookupA "workplacebytsphub" (bumpAllDoc doc a1 i1 a2 i2 a3 i3) = some E2 ∧
        lookupA "android" E2.platforms = some (a2 + 1) ∧
        lookupA "ios" E2.platforms = some (i2 + 1)) ∧
      (∃ E3, lookupA "tiabytsp" (bumpAllDoc doc a1 i1 a2 i2 a3 i3) = some E3 ∧
        lookupA "android" E3.platforms = some (a3 + 1) ∧
        lookupA "ios" E3.platforms = some (i3 + 1)) ∧
      ∃ t₁, t = t₁ ++ [Event.writeVersion (bumpAllDoc doc a1 i1 a2 i2 a3 i3),
          Event.printLine "All versions bumped and saved to version.json"] ∧
        ∀ d, Event.writeVersion d ∉ t₁ := by
  refine ⟨_, _, handle_bump_all_run w [] doc e1 e2 e3 a1 i1 a2 i2 a3 i3
      hv he1 ha1 hi1 he2 ha2 hi2 he3 ha3 hi3, rfl, ?_, ?_, ?_, ?_⟩
  · exact ⟨{ e1 with platforms := setA "ios" (i1 + 1) (setA "android" (a1 + 1) e1.platforms) },
      by simp [bumpAllDoc, setBuildNumber, lookupA_modA_self, lookupA_modA_ne,
        lookupA_setA_self, lookupA_setA_ne, he1],
      by simp [lookupA_setA_self, lookupA_setA_ne], by simp [lookupA_setA_self]⟩
  · exact ⟨{ e2 with platforms := setA "ios" (i2 + 1) (setA "android" (a2 + 1) e2.platforms) },
      by simp [bumpAllDoc, setBuildNumber, lookupA_modA_self, lookupA_modA_ne,
        lookupA_setA_self, lookupA_setA_ne, he2],
      by simp [lookupA_setA_self, lookupA_setA_ne], by simp [lookupA_setA_self]⟩
  · exact ⟨{ e3 with platforms := setA "ios" (i3 + 1) (setA "android" (a3 + 1) e3.platforms) },
      by simp [bumpAllDoc, setBuildNumber, lookupA_modA_self, lookupA_modA_ne,
        lookupA_setA_self, lookupA_setA_ne, he3],
      by simp [lookupA_setA_self, lookupA_setA_ne], by simp [lookupA_setA_self]⟩
  · refine ⟨[Event.readVersion,
      Event.appendChangelog (changelogLine w.date "workplacebyls" "android" e1.build_name (a1 + 1)),
      Event.printLine ("Bumped workplacebyls (android) to " ++ e1.build_name ++ "+" ++ toString (a1 + 1)),
      Event.appendChangelog (changelogLine w.date "workplacebyls" "ios" e1.build_name (i1 + 1)),
      Event.printLine ("Bumped workplacebyls (ios) to " ++ e1.build_name ++ "+" ++ toString (i1 + 1)),
      Event.appendChangelog (changelogLine w.date "workplacebytsphub" "android" e2.build_name (a2 + 1)),
      Event.printLine ("Bumped workplacebytsphub (android) to " ++ e2.build_name ++ "+" ++ toString (a2 + 1)),
      Event.appendChangelog (changelogLine w.date "workplacebytsphub" "ios" e2.build_name (i2 + 1)),
      Event.printLine ("Bumped workplacebytsphub (ios) to " ++ e2.build_name ++ "+" ++ toString (i2 + 1)),
      Event.appendChangelog (changelogLine w.date "tiabytsp" "android" e3.build_name (a3 + 1)),
      Event.printLine ("Bumped tiabytsp (android) to " ++ e3.build_name ++ "+" ++ toString (a3 + 1)),
      Event.appendChangelog (changelogLine w.date "tiabytsp" "ios" e3.build_name (i3 + 1)),
      Event.printLine ("Bumped tiabytsp (ios) to " ++ e3.build_name ++ "+" ++ toString (i3 + 1))],
      by simp, ?_⟩
    intro d
    simp

/-- Witness for C4: on the sample store, every pair's number is 1 higher
and exactly one write happens, at the end. -/
theorem bump_all_increments_every_pair_single_write_witness :
    ∃ w' t, handle_bump_all (sampleWorld, []) = (Except.ok (), (w', t)) ∧
      w'.version = some (bumpAllDoc sampleDoc 5 7 11 13 2 3) ∧
      (∃ E1, lookupA "workplacebyls" (bumpAllDoc sampleDoc 5 7 11 13 2 3) = some E1 ∧
        lookupA "android" E1.platforms = some (5 + 1) ∧
        lookupA "ios" E1.platforms = some (7 + 1)) ∧
      (∃ E2, lookupA "workplacebytsphub" (bumpAllDoc sampleDoc 5 7 11 13 2 3) = some E2 ∧
        lookupA "android" E2.platforms = some (11 + 1) ∧
        lookupA "ios" E2.platforms = some (13 + 1)) ∧
      (∃ E3, lookupA "tiabytsp" (bumpAllDoc sampleDoc 5 7 11 13 2 3) = some E3 ∧
        lookupA "android" E3.platforms = some (2 + 1) ∧
        lookupA "ios" E3.platforms = some (3 + 1)) ∧
      ∃ t₁, t = t₁ ++ [Event.writeVersion (bumpAllDoc sampleDoc 5 7 11 13 2 3),
          Event.printLine "All versions bumped and saved to version.json"] ∧
        ∀ d, Event.writeVersion d ∉ t₁ :=
  bump_all_increments_every_pair_single_write sampleWorld sampleDoc
    sampleE1 sampleE2 sampleE3 5 7 11 13 2 3 rfl
    (by decide) (by decide) (by decide) (by decide) (by decide) (by decide)
    (by decide) (by decide) (by decide)

end Release

namespace Release

/-- Claim C2: for every (flavor, platform) with stored build number `n`,
`release-all` first runs `bump-all` (persisting the incremented numbers)
and then invokes the packaging tool with the already-incremented `n + 1`
(every shorebird call it makes carries a post-increment number), whereas
the single-flavor `release` run from the same starting store invokes the
packaging tool with the pre-increment `n`: release-all ships exactly one
more than release would. -/
theorem release_all_ships_postincrement_number (w : World) (doc : VersionDoc)
    (e1 e2 e3 ef : FlavorEntry) (a1 i1 a2 i2 a3 i3 n : Nat)
    (pls cms : List String) (cr : List (String × Creds)) (c1 c2 c3 : Creds)
    (flavor platform : String)
    (hf : flavor ∈ SUPPORTED_FLAVORS) (hp : platform ∈ SUPPORTED_PLATFORMS)
    (hv : w.version = some doc)
    (he1 : lookupA "workplacebyls" doc = some e1)
    (ha1 : lookupA "android" e1.platforms = some a1)
    (hi1 : lookupA "ios" e1.platforms = some i1)
    (he2 : lookupA "workplacebytsphub" doc = some e2)
    (ha2 : lookupA "android" e2.platforms = some a2)
    (hi2 : lookupA "ios" e2.platforms = some i2)
    (he3 : lookupA "tiabytsp" doc = some e3)
    (ha3 : lookupA "android" e3.platforms = some a3)
    (hi3 : lookupA "ios" e3.platforms = some i3)
    (hpub : w.pubspec = some pls)
    (hcm : w.codemagic = some cms)
    (hc : w.credentials = some cr)
    (hl1 : lookupA "workplacebyls" cr = some c1)
    (hl2 : lookupA "workplacebytsphub" cr = some c2)
    (hl3 : lookupA "tiabytsp" cr = some c3)
    (hfp : lookupA flavor doc = some ef)
    (hnp : lookupA platform ef.platforms = some n) :
    (∃ wA tA, handle_release_all (w, []) = (Except.ok (), (wA, tA)) ∧
      wA.version = some (bumpAllDoc doc a1 i1 a2 i2 a3 i3) ∧
      Event.extCall (shorebirdCmd platform flavor ef.build_name (n + 1)) ∈ tA ∧
      (∀ cmd, Event.extCall cmd ∈ tA → cmd.head? = some "fastlane" ∨
        cmd = shorebirdCmd "android" "workplacebyls" e1.build_name (a1 + 1) ∨
        cmd = shorebirdCmd "android" "workplacebytsphub" e2.build_name (a2 + 1) ∨
        cmd = shorebirdCmd "android" "tiabytsp" e3.build_name (a3 + 1) ∨
        cmd = shorebirdCmd "ios" "workplacebyls" e1.build_name (i1 + 1) ∨
        cmd = shorebirdCmd "ios" "workplacebytsphub" e2.build_name (i2 + 1) ∨
        cmd = shorebirdCmd "ios" "tiabytsp" e3.build_name (i3 + 1))) ∧
    (∃ w1 t1, handle_release [flavor, platform] (w, []) = (Except.ok (), (w1, t1)) ∧
      Event.extCall (shorebirdCmd platform flavor ef.build_name n) ∈ t1 ∧
      ∀ cmd, Event.extCall cmd ∈ t1 → cmd.head? = some "fastlane" ∨
        cmd = shorebirdCmd platform flavor ef.build_name n) := by
  have hA := handle_release_all_run w doc e1 e2 e3 a1 i1 a2 i2 a3 i3 pls cms cr c1 c2 c3
    hv he1 ha1 hi1 he2 ha2 hi2 he3 ha3 hi3 hpub hcm hc hl1 hl2 hl3
  constructor
  · refine ⟨_, _, hA, rfl, ?_, ?_⟩
    · simp only [SUPPORTED_FLAVORS, List.mem_cons, List.not_mem_nil, or_false] at hf
      simp only [SUPPORTED_PLATFORMS, List.mem_cons, List.not_mem_nil, or_false] at hp
      rcases hf with rfl | rfl | rfl <;> rcases hp with rfl | rfl
      · obtain rfl : ef = e1 := Option.some.inj (hfp.symm.trans he1)
        obtain rfl : n = a1 := Option.some.inj (hnp.symm.trans ha1)
        simp [relChunk]
      · obtain rfl : ef = e1 := Option.some.inj (hfp.symm.trans he1)
        obtain rfl : n = i1 := Option.some.inj (hnp.symm.trans hi1)
        simp [relChunk]
      · obtain rfl : ef = e2 := Option.some.inj (hfp.symm.trans he2)
        obtain rfl : n = a2 := Option.some.inj (hnp.symm.trans ha2)
        simp [relChunk]
      · obtain rfl : ef = e2 := Option.some.inj (hfp.symm.trans he2)
        obtain rfl : n = i2 := Option.some.inj (hnp.symm.trans hi2)
        simp [relChunk]
      · obtain rfl : ef = e3 := Option.some.inj (hfp.symm.trans he3)
        obtain rfl : n = a3 := Option.some.inj (hnp.symm.trans ha3)
        simp [relChunk]
      · obtain rfl : ef = e3 := Option.some.inj (hfp.symm.trans he3)
        obtain rfl : n = i3 := Option.some.inj (hnp.symm.trans hi3)
        simp [relChunk]
    · intro cmd hcmd
      simp [relChunk] at hcmd
      rcases hcmd with h | h | h | h | h | h | h | h | h | h | h | h
      · exact Or.inr (Or.inl h)
      · exact Or.inl (extCall_mem_gpChunk h)
      · exact Or.inr (Or.inr (Or.inl h))
      · exact Or.inl (extCall_mem_gpChunk h)
      · exact Or.inr (Or.inr (Or.inr (Or.inl h)))
      · exact Or.inl (extCall_mem_gpChunk h)
      · exact Or.inr (Or.inr (Or.inr (Or.inr (Or.inl h))))
      · exact Or.inl (extCall_mem_asChunk h)
      · exact Or.inr (Or.inr (Or.inr (Or.inr (Or.inr (Or.inl h)))))
      · exact Or.inl (extCall_mem_asChunk h)
      · exact Or.inr (Or.inr (Or.inr (Or.inr (Or.inr (Or.inr h)))))
      · exact Or.inl (extCall_mem_asChunk h)
  · simp only [SUPPORTED_FLAVORS, List.mem_cons, List.not_mem_nil, or_false] at hf
    have single : ∀ c : Creds, lookupA flavor cr = some c →
        (∃ w1 t1, handle_release [flavor, platform] (w, []) = (Except.ok (), (w1, t1)) ∧
          Event.extCall (shorebirdCmd platform flavor ef.build_name n) ∈ t1 ∧
          ∀ cmd, Event.extCall cmd ∈ t1 → cmd.head? = some "fastlane" ∨
            cmd = shorebirdCmd platform flavor ef.build_name n) := by
      intro c hl
      refine ⟨_, _, handle_release_run w flavor platform doc ef n pls cr c
        hp hv hfp hnp hpub hc hl, by simp, ?_⟩
      intro cmd hcmd
      simp only [List.mem_append] at hcmd
      rcases hcmd with (((h | h) | h) | h) | h
      · simp at h
      · exact absurd h extCall_not_mem_cmChunk
      · simp at h
        exact Or.inr h
      · exact Or.inl (extCall_mem_uploadChunk h)
      · simp at h
    rcases hf with rfl | rfl | rfl
    · exact single c1 hl1
    · exact single c2 hl2
    · exact single c3 hl3

end Release

namespace Release

/-- Witness for C2: on the sample store, release-all ships
`--build-number=6` for `workplacebyls`/`android` while single release ships
`--build-number=5`. -/
theorem release_all_ships_postincrement_number_witness :
    (∃ wA tA, handle_release_all (sampleWorld, []) = (Except.ok (), (wA, tA)) ∧
      wA.version = some (bumpAllDoc sampleDoc 5 7 11 13 2 3) ∧
      Event.extCall (shorebirdCmd "android" "workplacebyls" sampleE1.build_name (5 + 1)) ∈ tA ∧
      (∀ cmd, Event.extCall cmd ∈ tA → cmd.head? = some "fastlane" ∨
        cmd = shorebirdCmd "android" "workplacebyls" sampleE1.build_name (5 + 1) ∨
        cmd = shorebirdCmd "android" "workplacebytsphub" sampleE2.build_name (11 + 1) ∨
        cmd = shorebirdCmd "android" "tiabytsp" sampleE3.build_name (2 + 1) ∨
        cmd = shorebirdCmd "ios" "workplacebyls" sampleE1.build_name (7 + 1) ∨
        cmd = shorebirdCmd "ios" "workplacebytsphub" sampleE2.build_name (13 + 1) ∨
        cmd = shorebirdCmd "ios" "tiabytsp" sampleE3.build_name (3 + 1))) ∧
    (∃ w1 t1, handle_release ["workplacebyls", "android"] (sampleWorld, []) =
        (Except.ok (), (w1, t1)) ∧
      Event.extCall (shorebirdCmd "android" "workplacebyls" sampleE1.build_name 5) ∈ t1 ∧
      ∀ cmd, Event.extCall cmd ∈ t1 → cmd.head? = some "fastlane" ∨
        cmd = shorebirdCmd "android" "workplacebyls" sampleE1.build_name 5) :=
  release_all_ships_postincrement_number sampleWorld sampleDoc
    sampleE1 sampleE2 sampleE3 sampleE1 5 7 11 13 2 3 5
    ["name: app", "version: 1.0.0+1", "environment: sdk"]
    ["workflows:", "      BUILD_NAME: \x22old\x22", "      BUILD_NUMBER: \x220\x22"]
    sampleCreds
    { google_play := "gp1.json", app_store_key_path := "as1.p8" }
    { google_play := "gp2.json", app_store_key_path := "as2.p8" }
    { google_play := "gp3.json", app_store_key_path := "as3.p8" }
    "workplacebyls" "android" (by decide) (by decide) rfl
    (by decide) (by decide) (by decide) (by decide) (by decide) (by decide)
    (by decide) (by decide) (by decide) rfl rfl rfl
    (by decide) (by decide) (by decide) (by decide) (by decide)

end Release
